import Mathlib

/-!
Verification of the bundler core of `tauri-revanced` (the `bundler` modules
under `cli` and `clitemp`): a shallow embedding of the settings model, the
package-type resolver, the path/archive utilities and the updater archiver,
together with theorems settling the specification claims.

Machine integers that appear (the `u32` priority) stay far from overflow, so
they are embedded as `Nat`.  Rust `Result` is embedded as `Except`, Rust
panics (`expect`, `panic!` in the source) as the `panic` constructor of
`RustOutcome`, and host-dependent inputs (`std::env::consts::OS`,
`target_triple()`) are passed as explicit parameters.
-/

namespace TauriBundler

/-- Mirrors `bundler::Error` (`src/clitemp/src/bundler/error.rs`), restricted
to the variants the verified code can produce.  `Generic` carries the
formatted message; `UnableToFindProject` renders as
"Unable to find a bundled project for the updater". -/
inductive Error where
  | Generic (msg : String)
  | UnableToFindProject
deriving DecidableEq, Repr

/-- Outcome of a Rust computation that may panic (`expect` / `panic` in the
source); distinct from `Except Error`, which models `Result`. -/
inductive RustOutcome (α : Type) where
  | ok (val : α)
  | panic (msg : String)
deriving DecidableEq, Repr

/-- Mirrors `PackageType` in `src/clitemp/src/bundler/bundle/settings.rs`. -/
inductive PackageType where
  | MacOsBundle
  | IosBundle
  | AppImage
  | Dmg
  | Updater
deriving DecidableEq, Repr

namespace PackageType

/-- Mirrors `PackageType::from_short_name`. -/
def from_short_name (name : String) : Option PackageType :=
  match name with
  | "ios" => some PackageType.IosBundle
  | "app" => some PackageType.MacOsBundle
  | "appimage" => some PackageType.AppImage
  | "dmg" => some PackageType.Dmg
  | "updater" => some PackageType.Updater
  | _ => none

/-- Mirrors `PackageType::short_name`. -/
def short_name : PackageType → String
  | PackageType.IosBundle => "ios"
  | PackageType.MacOsBundle => "app"
  | PackageType.AppImage => "appimage"
  | PackageType.Dmg => "dmg"
  | PackageType.Updater => "updater"

/-- Mirrors `PackageType::priority` (a `u32` in the source; the values 0..2
are nowhere near overflow, so `Nat` is a faithful embedding). -/
def priority : PackageType → Nat
  | PackageType.MacOsBundle => 0
  | PackageType.IosBundle => 0
  | PackageType.AppImage => 0
  | PackageType.Dmg => 1
  | PackageType.Updater => 2

end PackageType

/-- C8: for every `PackageType` variant `t`,
`from_short_name (short_name t) = some t`: the short-name mapping
round-trips through format then parse for all five variants. -/
theorem short_name_round_trip (t : PackageType) :
    PackageType.from_short_name (PackageType.short_name t) = some t := by
  cases t <;> rfl

/-- C1: priorities order prerequisites strictly before consumers
(`MacOsBundle < Dmg`, `MacOsBundle < Updater`, `AppImage < Updater`), and in
any list sorted by ascending priority no occurrence of `Dmg` precedes an
occurrence of `MacOsBundle`, and no occurrence of `Updater` precedes an
occurrence of `MacOsBundle` or of `AppImage`. -/
theorem priority_orders_prerequisites_first (l : List PackageType)
    (hs : l.Sorted (fun a b => PackageType.priority a ≤ PackageType.priority b)) :
    (PackageType.priority PackageType.MacOsBundle < PackageType.priority PackageType.Dmg ∧
     PackageType.priority PackageType.MacOsBundle < PackageType.priority PackageType.Updater ∧
     PackageType.priority PackageType.AppImage < PackageType.priority PackageType.Updater) ∧
    ∀ i j : Fin l.length, i < j →
      (l.get i = PackageType.Dmg → l.get j ≠ PackageType.MacOsBundle) ∧
      (l.get i = PackageType.Updater → l.get j ≠ PackageType.MacOsBundle) ∧
      (l.get i = PackageType.Updater → l.get j ≠ PackageType.AppImage) := by
  refine ⟨⟨by decide, by decide, by decide⟩, ?_⟩
  intro i j hij
  have hle := hs.rel_get_of_lt hij
  refine ⟨?_, ?_, ?_⟩ <;> intro hi hj <;> rw [hi, hj] at hle <;> simp [PackageType.priority] at hle

/-- Witness for C1 at the concrete sorted list
`[MacOsBundle, AppImage, Dmg, Updater]`: the three strict priority
inequalities hold. -/
theorem priority_orders_prerequisites_first_witness :
    PackageType.priority PackageType.MacOsBundle
      < PackageType.priority PackageType.Dmg ∧
    PackageType.priority PackageType.MacOsBundle
      < PackageType.priority PackageType.Updater ∧
    PackageType.priority PackageType.AppImage
      < PackageType.priority PackageType.Updater :=
  (priority_orders_prerequisites_first
      [PackageType.MacOsBundle, PackageType.AppImage, PackageType.Dmg,
       PackageType.Updater]
      (by decide)).1

instance {ε α : Type} [DecidableEq ε] [DecidableEq α] :
    DecidableEq (Except ε α) := fun x y =>
  match x, y with
  | Except.ok a, Except.ok b =>
    if h : a = b then isTrue (by rw [h]) else isFalse (by simp [h])
  | Except.error a, Except.error b =>
    if h : a = b then isTrue (by rw [h]) else isFalse (by simp [h])
  | Except.ok _, Except.error _ => isFalse (by simp)
  | Except.error _, Except.ok _ => isFalse (by simp)

/-- Mirrors `log::Level` as used by the settings (only the default matters
to the claims). -/
inductive LogLevel where
  | error
  | warn
  | info
  | debug
  | trace
deriving DecidableEq, Repr

/-- Mirrors `PackageSettings`. -/
structure PackageSettings where
  product_name : String
  version : String
  description : String
  homepage : Option String
  authors : Option (List String)
  default_run : Option String
deriving DecidableEq, Repr

/-- Mirrors `UpdaterSettings`; the Windows-only `msiexec_args` field is
opaque to every claim and elided. -/
structure UpdaterSettings where
  pubkey : String
deriving DecidableEq, Repr

/-- Mirrors `BundleSettings`, keeping the fields the claims read
(`resources`, `resources_map`, `external_bin`, `updater`, plus the
identifier/publisher/icon fields); the platform sub-setting trees
(`appimage`/`dmg`/`macos`/`windows`), descriptions, license, category,
file associations and deep links are opaque to every claim and elided.
The Rust `HashMap<String, String>` of `resources_map` is embedded as an
association list. -/
structure BundleSettings where
  identifier : Option String := none
  publisher : Option String := none
  icon : Option (List String) := none
  resources : Option (List String) := none
  resources_map : Option (List (String × String)) := none
  external_bin : Option (List String) := none
  updater : Option UpdaterSettings := none
deriving DecidableEq, Repr

/-- Mirrors `BundleBinary`. -/
structure BundleBinary where
  name : String
  src_path : Option String := none
  main : Bool
deriving DecidableEq, Repr

/-- Mirrors `Settings`.  The Rust struct's `package_types` field (the list
explicitly requested on the command line) is named
`requested_package_types` here because Lean cannot give a structure field
and a function in the structure's namespace the same name; the method
`Settings.package_types` below keeps the source name. -/
structure Settings where
  log_level : LogLevel
  package : PackageSettings
  requested_package_types : Option (List PackageType)
  project_out_directory : String
  bundle_settings : BundleSettings
  binaries : List BundleBinary
  target : String
deriving DecidableEq, Repr

/-- Mirrors `SettingsBuilder`. -/
structure SettingsBuilder where
  log_level : Option LogLevel := none
  project_out_directory : Option String := none
  package_types : Option (List PackageType) := none
  package_settings : Option PackageSettings := none
  bundle_settings : BundleSettings := {}
  binaries : List BundleBinary := []
  target : Option String := none
deriving DecidableEq, Repr

/-- Modelled from the spec: `tauri_utils::resources::external_binaries` is
an external-crate helper not under `src/`; per the spec's naming
convention each configured external binary path gets the target triple
appended (`<name>-<target-triple>`; the Windows-only `.exe` suffix does not
arise on the Unix targets verified here). -/
def external_binaries (bins : List String) (target : String) : List String :=
  bins.map (fun b => b ++ "-" ++ target)

/-- Mirrors `SettingsBuilder::build`.  `target_triple` is the host-dependent
result of `platform::target_triple()`, used only when the builder carries no
explicit target; the two `expect`s of the source are the `panic` outcomes,
evaluated in the source's field order (`package` before
`project_out_directory`). -/
def SettingsBuilder.build (target_triple : Except Error String)
    (b : SettingsBuilder) : RustOutcome (Except Error Settings) :=
  match (match b.target with
         | some t => Except.ok t
         | none => target_triple) with
  | Except.error e => RustOutcome.ok (Except.error e)
  | Except.ok target =>
    match b.package_settings with
    | none => RustOutcome.panic "package settings is required"
    | some pkg =>
      match b.project_out_directory with
      | none => RustOutcome.panic "out directory is required"
      | some out =>
        RustOutcome.ok (Except.ok {
          log_level := b.log_level.getD LogLevel.error
          package := pkg
          requested_package_types := b.package_types
          project_out_directory := out
          binaries := b.binaries
          bundle_settings := { b.bundle_settings with
            external_bin := b.bundle_settings.external_bin.map
              (fun bins => external_binaries bins target) }
          target := target })

/-- Mirrors `Settings::main_binary_name` (`binaries.iter().find(|bin| bin.main)`
followed by `expect`). -/
def Settings.main_binary_name (s : Settings) : RustOutcome String :=
  match s.binaries.find? (fun bin => bin.main) with
  | some bin => RustOutcome.ok bin.name
  | none => RustOutcome.panic "failed to find main binary"

/-- Mirrors `tauri_utils::resources::ResourcePaths` at the level the claims
need: which source (pattern list or explicit map) the iterator was built
from, and whether directory walking is allowed. -/
inductive ResourcePaths where
  | ofList (patterns : List String) (allow_walk : Bool)
  | ofMap (m : List (String × String)) (allow_walk : Bool)
deriving DecidableEq, Repr

/-- Mirrors `Settings::resource_files`, including its panic on the
conflicting configuration. -/
def Settings.resource_files (s : Settings) : RustOutcome ResourcePaths :=
  match s.bundle_settings.resources, s.bundle_settings.resources_map with
  | some paths, none => RustOutcome.ok (ResourcePaths.ofList paths true)
  | none, some m => RustOutcome.ok (ResourcePaths.ofMap m true)
  | some _, some _ =>
    RustOutcome.panic "cannot use both `resources` and `resources_map`"
  | none, none => RustOutcome.ok (ResourcePaths.ofList [] true)

/-- Mirrors `Settings::is_update_enabled`. -/
def Settings.is_update_enabled (s : Settings) : Bool :=
  (s.bundle_settings.updater.map (fun u => !u.pubkey.isEmpty)).getD false

/-- Embeds Rust's `str::split(char)`: auxiliary accumulating split of a
character list at every occurrence of `c`. -/
def splitOnCharAux (c : Char) : List Char → List Char → List (List Char)
  | [], acc => [acc.reverse]
  | x :: xs, acc =>
    if x = c then acc.reverse :: splitOnCharAux c xs []
    else splitOnCharAux c xs (x :: acc)

/-- Embeds Rust's `str::split(char)` on a string (structural, so it
evaluates in the kernel; Lean's `String.splitOn` does not reduce). -/
def splitChar (c : Char) (s : String) : List String :=
  (splitOnCharAux c s.data []).map (fun cs => String.mk cs)

/-- Embeds Rust's `str::replace`: left-to-right, non-overlapping
replacement of `pat` by `sub`.  The fuel argument (instantiated with the
input length, enough since every step consumes at least one character for
the non-empty patterns used here) keeps the recursion structural. -/
def replaceFuel (pat sub : List Char) : Nat → List Char → List Char
  | 0, s => s
  | _ + 1, [] => []
  | n + 1, ch :: rest =>
    if pat.isPrefixOf (ch :: rest) then
      sub ++ replaceFuel pat sub n ((ch :: rest).drop pat.length)
    else ch :: replaceFuel pat sub n rest

/-- Embeds Rust's `str::replace` on strings. -/
def strReplace (s pat sub : String) : String :=
  String.mk (replaceFuel pat.data sub.data s.data.length s.data)

/-- Mirrors the `target_os` computation at the head of
`Settings::package_types`: third `-`-separated segment of the target triple,
falling back to the host's `std::env::consts::OS` (passed in as `host_os`),
with every `darwin` occurrence replaced by `macos`. -/
def Settings.target_os (host_os : String) (s : Settings) : String :=
  strReplace (((splitChar '-' s.target).get? 2).getD host_os) "darwin" "macos"

/-- Mirrors `Settings::package_types`: the native set per target OS, the
`Updater` push when updates are enabled, and the request-filtering loop
(translated as a `foldl` accumulating `types`). -/
def Settings.package_types (host_os : String) (s : Settings) :
    Except Error (List PackageType) :=
  let target_os := s.target_os host_os
  match (match target_os with
         | "macos" => Except.ok [PackageType.MacOsBundle, PackageType.Dmg]
         | "ios" => Except.ok [PackageType.IosBundle]
         | "linux" => Except.ok [PackageType.AppImage]
         | "windows" => Except.ok []
         | os => Except.error (Error.Generic
             ("Native " ++ os ++ " bundles not yet supported."))) with
  | Except.error e => Except.error e
  | Except.ok base =>
    let platform_types :=
      if s.is_update_enabled then base ++ [PackageType.Updater] else base
    match s.requested_package_types with
    | some package_types =>
      Except.ok (package_types.foldl
        (fun types package_type =>
          if platform_types.any (fun t => t == package_type)
          then types ++ [package_type] else types) [])
    | none => Except.ok platform_types

/-- The native package-type set per normalized OS name, written from the
spec's table (macOS → MacOsBundle, Dmg; iOS → IosBundle; Linux → AppImage;
Windows → nothing); `none` for any other OS. -/
def specNativeSet (os : String) : Option (List PackageType) :=
  if os = "macos" then some [PackageType.MacOsBundle, PackageType.Dmg]
  else if os = "ios" then some [PackageType.IosBundle]
  else if os = "linux" then some [PackageType.AppImage]
  else if os = "windows" then some []
  else none

/-- Update support per the spec's words: an updater configuration with a
non-empty public key is present. -/
def specUpdateEnabled (s : Settings) : Bool :=
  match s.bundle_settings.updater with
  | some u => decide (u.pubkey ≠ "")
  | none => false

/-- The full native set per the spec: the per-OS set, with `Updater`
appended exactly when update support is enabled. -/
def specPlatformTypes (host_os : String) (s : Settings) :
    Option (List PackageType) :=
  (specNativeSet (s.target_os host_os)).map
    (fun nat => if specUpdateEnabled s then nat ++ [PackageType.Updater] else nat)

/-- The `package_types` result per the spec: the native set, restricted to the
requested list (kept in requested order) when one was given. -/
def specPackageTypes (host_os : String) (s : Settings) :
    Except Error (List PackageType) :=
  match specPlatformTypes host_os s with
  | none => Except.error (Error.Generic
      ("Native " ++ s.target_os host_os ++ " bundles not yet supported."))
  | some nativeSet =>
    Except.ok (match s.requested_package_types with
      | some req => req.filter (fun t => decide (t ∈ nativeSet))
      | none => nativeSet)

theorem any_beq_eq_mem (platform : List PackageType) (a : PackageType) :
    platform.any (fun t => t == a) = decide (a ∈ platform) := by
  induction platform with
  | nil => simp
  | cons hd tl ih =>
    by_cases h : a = hd
    · subst h; simp
    · have hb : (hd == a) = false := beq_eq_false_iff_ne.mpr (Ne.symm h)
      simp [List.any_cons, ih, List.mem_cons, h, hb]

theorem is_update_enabled_eq_spec (s : Settings) :
    s.is_update_enabled = specUpdateEnabled s := by
  unfold Settings.is_update_enabled specUpdateEnabled
  cases s.bundle_settings.updater with
  | none => rfl
  | some u =>
    by_cases h : u.pubkey = ""
    · simp [h, String.isEmpty_iff]
    · have h2 : u.pubkey.isEmpty = false := by
        rw [Bool.eq_false_iff]
        intro hc
        exact h ((String.isEmpty_iff u.pubkey).mp hc)
      simp [h2, h]

theorem foldl_push_eq_filter (platform req : List PackageType) :
    req.foldl
      (fun types package_type =>
        if package_type ∈ platform
        then types ++ [package_type] else types) []
      = req.filter (fun t => decide (t ∈ platform)) := by
  have h : ∀ acc : List PackageType,
      req.foldl
        (fun types package_type =>
          if package_type ∈ platform
          then types ++ [package_type] else types) acc
        = acc ++ req.filter (fun t => decide (t ∈ platform)) := by
    induction req with
    | nil => intro acc; simp
    | cons hd tl ih =>
      intro acc
      simp only [List.foldl_cons, List.filter_cons, decide_eq_true_eq] at ih ⊢
      by_cases hm : hd ∈ platform
      · rw [if_pos hm, if_pos hm, ih]
        simp
      · rw [if_neg hm, if_neg hm, ih]
  simpa using h []

theorem native_arm_eq_spec (os : String) :
    (match os with
     | "macos" => Except.ok [PackageType.MacOsBundle, PackageType.Dmg]
     | "ios" => Except.ok [PackageType.IosBundle]
     | "linux" => Except.ok [PackageType.AppImage]
     | "windows" => Except.ok []
     | os => Except.error (Error.Generic
         ("Native " ++ os ++ " bundles not yet supported.")))
    = (match specNativeSet os with
       | some l => Except.ok l
       | none => Except.error (Error.Generic
           ("Native " ++ os ++ " bundles not yet supported."))) := by
  unfold specNativeSet
  split
  · rfl
  · rfl
  · rfl
  · rfl
  · rename_i h1 h2 h3 h4
    rw [if_neg h1, if_neg h2, if_neg h3, if_neg h4]

theorem package_types_eq_spec (host_os : String) (s : Settings) :
    s.package_types host_os = specPackageTypes host_os s := by
  unfold Settings.package_types specPackageTypes specPlatformTypes
  dsimp only
  rw [native_arm_eq_spec]
  cases hns : specNativeSet (Settings.target_os host_os s) with
  | none => simp
  | some nat =>
    dsimp only [Option.map]
    rw [is_update_enabled_eq_spec]
    cases s.requested_package_types with
    | none => rfl
    | some req => simp [foldl_push_eq_filter]

/-- C2: `Settings::package_types` computes the native set from the target
triple's OS segment (with `darwin` normalized to `macos`): macos →
[MacOsBundle, Dmg], ios → [IosBundle], linux → [AppImage], windows → [];
appends `Updater` to that set if and only if an updater configuration with
a non-empty public key is present; and, when a list of package types was
explicitly requested, returns exactly the requested types that are members
of the native set, silently omitting requested types outside it
(`specPackageTypes` states precisely this reading of the spec). -/
theorem package_types_matches_spec (host_os : String) (s : Settings) :
    s.package_types host_os = specPackageTypes host_os s :=
  package_types_eq_spec host_os s

/-- C10: with an explicitly requested list, `package_types()` returns the
qualifying requested types in the exact order they were requested — the
result is the membership filter of the request, hence a sublist of the
request — and a type requested more than once keeps its multiplicity
(count equal to the request's count for native types, zero otherwise). -/
theorem package_types_preserves_request_order (host_os : String)
    (s : Settings) (req l platform : List PackageType)
    (hreq : s.requested_package_types = some req)
    (hplat : specPlatformTypes host_os s = some platform)
    (hok : s.package_types host_os = Except.ok l) :
    l = req.filter (fun t => decide (t ∈ platform)) ∧
    l.Sublist req ∧
    ∀ t : PackageType,
      l.count t = if t ∈ platform then req.count t else 0 := by
  have he := package_types_eq_spec host_os s
  rw [hok] at he
  unfold specPackageTypes at he
  simp only [hplat, hreq] at he
  injection he with hl
  subst hl
  refine ⟨rfl, List.filter_sublist req, ?_⟩
  intro t
  by_cases ht : t ∈ platform
  · rw [if_pos ht]
    exact List.count_filter (decide_eq_true ht)
  · rw [if_neg ht]
    refine List.count_eq_zero.mpr ?_
    intro hc
    exact ht (of_decide_eq_true (List.mem_filter.mp hc).2)

/-- Package settings shared by the concrete witnesses below. -/
def samplePackage : PackageSettings :=
  { product_name := "app"
    version := "1.0.0"
    description := ""
    homepage := none
    authors := none
    default_run := none }

/-- A Linux-targeted `Settings` that requests `[AppImage, Dmg, AppImage]`. -/
def sampleRequestSettings : Settings :=
  { log_level := LogLevel.error
    package := samplePackage
    requested_package_types :=
      some [PackageType.AppImage, PackageType.Dmg, PackageType.AppImage]
    project_out_directory := "out"
    bundle_settings := {}
    binaries := []
    target := "x86_64-unknown-linux-gnu" }

/-- Witness for C10: the Linux native set is `[AppImage]`; requesting
`[AppImage, Dmg, AppImage]` yields `[AppImage, AppImage]` (request order
and multiplicity kept, `Dmg` silently dropped), a sublist of the request. -/
theorem package_types_preserves_request_order_witness :
    sampleRequestSettings.requested_package_types
      = some [PackageType.AppImage, PackageType.Dmg, PackageType.AppImage] ∧
    specPlatformTypes "linux" sampleRequestSettings
      = some [PackageType.AppImage] ∧
    sampleRequestSettings.package_types "linux"
      = Except.ok [PackageType.AppImage, PackageType.AppImage] ∧
    List.Sublist [PackageType.AppImage, PackageType.AppImage]
      [PackageType.AppImage, PackageType.Dmg, PackageType.AppImage] :=
  ⟨rfl, by decide, by decide,
   (package_types_preserves_request_order "linux" sampleRequestSettings
      [PackageType.AppImage, PackageType.Dmg, PackageType.AppImage]
      [PackageType.AppImage, PackageType.AppImage] [PackageType.AppImage]
      rfl (by decide) (by decide)).2.1⟩

/-- A builder whose bundle settings set both `resources` and
`resources_map`, with all required fields present. -/
def conflictingBuilder : SettingsBuilder :=
  { project_out_directory := some "out"
    package_settings := some samplePackage
    bundle_settings :=
      { resources := some ["res/a.txt"]
        resources_map := some [("res/b.txt", "data")] }
    target := some "x86_64-unknown-linux-gnu" }

/-- C3 counterexample: a builder whose bundle settings carry both the
resources list and the resources map builds successfully —
`SettingsBuilder::build` performs no conflict check, so the construction
is NOT rejected. -/
theorem build_accepts_conflicting_resources :
    conflictingBuilder.bundle_settings.resources = some ["res/a.txt"] ∧
    conflictingBuilder.bundle_settings.resources_map
      = some [("res/b.txt", "data")] ∧
    SettingsBuilder.build (Except.ok "host-triple") conflictingBuilder
      = RustOutcome.ok (Except.ok
          { log_level := LogLevel.error
            package := samplePackage
            requested_package_types := none
            project_out_directory := "out"
            bundle_settings :=
              { resources := some ["res/a.txt"]
                resources_map := some [("res/b.txt", "data")] }
            binaries := []
            target := "x86_64-unknown-linux-gnu" }) :=
  ⟨rfl, rfl, by decide⟩

/-- C3 amended: constructing a `Settings` whose bundle settings have both
`resources` and `resources_map` set succeeds; the conflict is rejected
only at use, when `resource_files()` panics with "cannot use both
`resources` and `resources_map`" instead of silently preferring one
source. -/
theorem resources_conflict_rejected_at_use (b : SettingsBuilder)
    (tt : Except Error String) (t out : String) (ps : PackageSettings)
    (rs : List String) (rm : List (String × String))
    (ht : b.target = some t) (hp : b.package_settings = some ps)
    (ho : b.project_out_directory = some out)
    (hr : b.bundle_settings.resources = some rs)
    (hm : b.bundle_settings.resources_map = some rm) :
    ∃ s : Settings,
      SettingsBuilder.build tt b = RustOutcome.ok (Except.ok s) ∧
      s.resource_files
        = RustOutcome.panic "cannot use both `resources` and `resources_map`" := by
  refine ⟨{ log_level := b.log_level.getD LogLevel.error
            package := ps
            requested_package_types := b.package_types
            project_out_directory := out
            binaries := b.binaries
            bundle_settings := { b.bundle_settings with
              external_bin := b.bundle_settings.external_bin.map
                (fun bins => external_binaries bins t) }
            target := t }, ?_, ?_⟩
  · unfold SettingsBuilder.build
    rw [ht, hp, ho]
  · unfold Settings.resource_files
    simp only [hr, hm]

/-- Witness for the C3 amended theorem at the concrete conflicting
builder. -/
theorem resources_conflict_rejected_at_use_witness :
    ∃ s : Settings,
      SettingsBuilder.build (Except.ok "host-triple") conflictingBuilder
        = RustOutcome.ok (Except.ok s) ∧
      s.resource_files
        = RustOutcome.panic "cannot use both `resources` and `resources_map`" :=
  resources_conflict_rejected_at_use conflictingBuilder
    (Except.ok "host-triple") "x86_64-unknown-linux-gnu" "out" samplePackage
    ["res/a.txt"] [("res/b.txt", "data")] rfl rfl rfl rfl rfl

/-- A `Settings` with two binaries both marked main. -/
def twoMainSettings : Settings :=
  { log_level := LogLevel.error
    package := samplePackage
    requested_package_types := none
    project_out_directory := "out"
    bundle_settings := {}
    binaries :=
      [{ name := "first", main := true }, { name := "second", main := true }]
    target := "x86_64-unknown-linux-gnu" }

/-- C6 counterexample: with TWO binaries marked main (count 2 ≠ 1), the
main-binary lookup does not fail — `find` returns the first match, so
`main_binary_name` succeeds with "first". -/
theorem main_binary_lookup_succeeds_with_two_mains :
    twoMainSettings.binaries.countP (fun b => b.main) = 2 ∧
    twoMainSettings.main_binary_name = RustOutcome.ok "first" :=
  ⟨by decide, by decide⟩

/-- C6 amended: `main_binary_name` fails (panics with "failed to find main
binary") exactly when NO binary is marked main; whenever at least one
binary is marked main — including when several are — it succeeds and
returns the first main-marked binary's name. -/
theorem main_binary_name_first_main (s : Settings) :
    (s.main_binary_name = RustOutcome.panic "failed to find main binary" ↔
      ∀ b ∈ s.binaries, b.main = false) ∧
    ∀ pre b post, s.binaries = pre ++ b :: post → b.main = true →
      (∀ x ∈ pre, x.main = false) →
      s.main_binary_name = RustOutcome.ok b.name := by
  constructor
  · unfold Settings.main_binary_name
    cases hf : s.binaries.find? (fun bin => bin.main) with
    | some bin =>
      constructor
      · intro h
        exact absurd h (by simp)
      · intro h
        have h1 : bin.main = true := List.find?_some hf
        have h2 : bin ∈ s.binaries := List.mem_of_find?_eq_some hf
        rw [h bin h2] at h1
        exact absurd h1 (by simp)
    | none =>
      constructor
      · intro _ b hb
        have hnb := List.find?_eq_none.mp hf b hb
        exact Bool.not_eq_true _ ▸ Bool.of_not_eq_true hnb
      · intro _
        rfl
  · intro pre b post hsplit hmain hpre
    unfold Settings.main_binary_name
    rw [hsplit, List.find?_append]
    have hpre2 : pre.find? (fun bin => bin.main) = none :=
      List.find?_eq_none.mpr (fun x hx => by simp [hpre x hx])
    rw [hpre2, List.find?_cons_of_pos _ hmain]
    rfl

/-- A `Settings` whose binary list is `[aux (not main), primary (main),
extra (main)]`. -/
def mixedMainSettings : Settings :=
  { log_level := LogLevel.error
    package := samplePackage
    requested_package_types := none
    project_out_directory := "out"
    bundle_settings := {}
    binaries :=
      [{ name := "helper", main := false }, { name := "primary", main := true },
       { name := "extra", main := true }]
    target := "x86_64-unknown-linux-gnu" }

/-- Witness for the C6 amended theorem: the first main-marked binary of
`mixedMainSettings` ("primary") is returned. -/
theorem main_binary_name_first_main_witness :
    mixedMainSettings.main_binary_name = RustOutcome.ok "primary" :=
  (main_binary_name_first_main mixedMainSettings).2
    [{ name := "helper", main := false }]
    { name := "primary", main := true }
    [{ name := "extra", main := true }]
    rfl rfl (by decide)

/-- Entry kinds of the abstract filesystem used to embed
`bundle/common.rs`: regular files, directories and symlinks (which
`copy_dir` replicates without following). -/
inductive FsKind where
  | file
  | dir
  | symlink
deriving DecidableEq, Repr

/-- One filesystem entry: its path (as components), its kind, and its
payload (file bytes; for a symlink, the encoded link target; empty for
directories). -/
structure FsEntry where
  path : List String
  kind : FsKind
  payload : List Nat
deriving DecidableEq, Repr

/-- The abstract filesystem state: a finite list of entries. -/
abbrev Fs := List FsEntry

/-- Embeds `Path::exists`. -/
def fsExists (fs : Fs) (p : List String) : Bool :=
  fs.any (fun e => e.path == p)

/-- Embeds `Path::is_dir`. -/
def fsIsDir (fs : Fs) (p : List String) : Bool :=
  match fs.find? (fun e => e.path == p) with
  | some e => e.kind == FsKind.dir
  | none => false

/-- The `{:?}` debug rendering of a path used in the error messages of
`common.rs` (quoted, `/`-joined). -/
def pathDisplay (p : List String) : String :=
  "\"" ++ String.intercalate "/" p ++ "\""

/-- The missing ancestor directories `fs::create_dir_all(to.parent())`
would create: every proper prefix of `p` not yet present, as a directory
entry. -/
def missingParents (fs : Fs) (p : List String) : List FsEntry :=
  ((List.range p.length).map (fun n => p.take n)).filterMap
    (fun q => if fsExists fs q then none
              else some { path := q, kind := FsKind.dir, payload := [] })

/-- Mirrors `copy_dir` of `src/clitemp/src/bundler/bundle/common.rs`: the
three guards in source order (`from` missing, `from` not a directory, `to`
already existing) each return the corresponding `Error::Generic` with the
filesystem untouched; otherwise the parent of `to` is created and the
`walkdir` loop replicates every entry under `from` (symlinks as symlinks
with the same target, directories as directories, files by byte copy) at
`to ++ (path minus the `from` prefix)`. -/
def copy_dir (fs : Fs) (src : List String) (dst : List String) :
    Except Error Unit × Fs :=
  if !fsExists fs src then
    (Except.error (Error.Generic (pathDisplay src ++ " does not exist")), fs)
  else if !fsIsDir fs src then
    (Except.error (Error.Generic (pathDisplay src ++ " is not a Directory")), fs)
  else if fsExists fs dst then
    (Except.error (Error.Generic (pathDisplay dst ++ " already exists")), fs)
  else
    let copied := (fs.filter (fun e => src.isPrefixOf e.path)).map
      (fun e => { e with path := dst ++ e.path.drop src.length })
    (Except.ok (), fs ++ missingParents fs dst ++ copied)

/-- C7: `copy_dir(from, to)` returns an error when `from` does not exist,
when `from` exists but is not a directory, or when `to` already exists
(checked in that order, so no silent merge); in each of these failure
cases the filesystem comes back unchanged — no copy is performed. -/
theorem copy_dir_guard_failures (fs : Fs) (src dst : List String) :
    (fsExists fs src = false →
      copy_dir fs src dst
        = (Except.error (Error.Generic (pathDisplay src ++ " does not exist")),
           fs)) ∧
    (fsExists fs src = true → fsIsDir fs src = false →
      copy_dir fs src dst
        = (Except.error
             (Error.Generic (pathDisplay src ++ " is not a Directory")), fs)) ∧
    (fsExists fs src = true → fsIsDir fs src = true → fsExists fs dst = true →
      copy_dir fs src dst
        = (Except.error (Error.Generic (pathDisplay dst ++ " already exists")),
           fs)) := by
  refine ⟨?_, ?_, ?_⟩
  · intro h1
    unfold copy_dir
    simp [h1]
  · intro h1 h2
    unfold copy_dir
    simp [h1, h2]
  · intro h1 h2 h3
    unfold copy_dir
    simp [h1, h2, h3]

/-- A small filesystem: file `a`, directory `b`, directory `c`. -/
def sampleFs : Fs :=
  [{ path := ["a"], kind := FsKind.file, payload := [1] },
   { path := ["b"], kind := FsKind.dir, payload := [] },
   { path := ["c"], kind := FsKind.dir, payload := [] }]

/-- Witness for C7: copying directory `b` onto the already-existing `c`
fails with "already exists" and leaves the filesystem unchanged. -/
theorem copy_dir_guard_failures_witness :
    fsExists sampleFs ["b"] = true ∧ fsIsDir sampleFs ["b"] = true ∧
    fsExists sampleFs ["c"] = true ∧
    copy_dir sampleFs ["b"] ["c"]
      = (Except.error (Error.Generic "\"c\" already exists"), sampleFs) :=
  ⟨by decide, by decide, by decide,
   (copy_dir_guard_failures sampleFs ["b"] ["c"]).2.2
     (by decide) (by decide) (by decide)⟩

/-- Rust's `Path::file_name` on a string path: the last `/`-separated
component (the `..`/trailing-separator corner cases of `Path` do not arise
for the artifact paths handled here). -/
def rustFileName (p : String) : String :=
  (splitChar '/' p).getLastD ""

/-- Rust's `Path::extension`: the portion of the file name after its final
dot; `none` when there is no dot or when the name starts with its only
dot (hidden files). -/
def rustExtension (p : String) : Option String :=
  match splitChar '.' (rustFileName p) with
  | [] => none
  | [_] => none
  | "" :: [_] => none
  | parts => some (parts.getLastD "")

/-- Mirrors `Bundle` (`src/cli/src/bundler/bundle/mod.rs`): the output
record of a completed platform bundler. -/
structure Bundle where
  package_type : PackageType
  bundle_paths : List String
deriving DecidableEq, Repr

/-- Mirrors `bundle_update_macos` of
`src/cli/src/bundler/bundle/updater_bundle.rs`: among the prior bundles of
type `MacOsBundle`, find the first path with extension `app`; archive it
(path with `.tar.gz` appended), else `Error::UnableToFindProject`. -/
def bundle_update_macos (bundles : List Bundle) : Except Error (List String) :=
  match (bundles.filter
      (fun b => b.package_type == PackageType.MacOsBundle)).findSome?
      (fun b => b.bundle_paths.find?
        (fun p => rustExtension p == some "app")) with
  | some source_path => Except.ok [source_path ++ ".tar.gz"]
  | none => Except.error Error.UnableToFindProject

/-- Mirrors `bundle_update_linux`: as above with `AppImage` bundles and the
`AppImage` extension. -/
def bundle_update_linux (bundles : List Bundle) : Except Error (List String) :=
  match (bundles.filter
      (fun b => b.package_type == PackageType.AppImage)).findSome?
      (fun b => b.bundle_paths.find?
        (fun p => rustExtension p == some "AppImage")) with
  | some source_path => Except.ok [source_path ++ ".tar.gz"]
  | none => Except.error Error.UnableToFindProject

/-- C4: when the prior-`Bundle` list contains no `MacOsBundle` with a
`.app` path (resp. no `AppImage` bundle with a `.AppImage` path) — in
particular when it is empty — the Updater archiver returns the "unable to
find a bundled project" error, never a successful (empty) artifact list. -/
theorem updater_requires_prior_bundle (bundles : List Bundle)
    (hmac : ∀ b ∈ bundles, b.package_type = PackageType.MacOsBundle →
      ∀ p ∈ b.bundle_paths, rustExtension p ≠ some "app")
    (hlin : ∀ b ∈ bundles, b.package_type = PackageType.AppImage →
      ∀ p ∈ b.bundle_paths, rustExtension p ≠ some "AppImage") :
    bundle_update_macos bundles = Except.error Error.UnableToFindProject ∧
    bundle_update_linux bundles = Except.error Error.UnableToFindProject := by
  constructor
  · unfold bundle_update_macos
    have hn : (bundles.filter
        (fun b => b.package_type == PackageType.MacOsBundle)).findSome?
        (fun b => b.bundle_paths.find?
          (fun p => rustExtension p == some "app")) = none := by
      rw [List.findSome?_eq_none_iff]
      intro b hb
      rw [List.find?_eq_none]
      intro p hp
      have hbt : b.package_type = PackageType.MacOsBundle := by
        have hmem := (List.mem_filter.mp hb).2
        simpa using hmem
      have hne := hmac b (List.mem_filter.mp hb).1 hbt p hp
      simp [hne]
    rw [hn]
  · unfold bundle_update_linux
    have hn : (bundles.filter
        (fun b => b.package_type == PackageType.AppImage)).findSome?
        (fun b => b.bundle_paths.find?
          (fun p => rustExtension p == some "AppImage")) = none := by
      rw [List.findSome?_eq_none_iff]
      intro b hb
      rw [List.find?_eq_none]
      intro p hp
      have hbt : b.package_type = PackageType.AppImage := by
        have hmem := (List.mem_filter.mp hb).2
        simpa using hmem
      have hne := hlin b (List.mem_filter.mp hb).1 hbt p hp
      simp [hne]
    rw [hn]

/-- Witness for C4: the empty prior-bundle list yields the
"unable to find a bundled project" error on both platforms. -/
theorem updater_requires_prior_bundle_witness :
    bundle_update_macos [] = Except.error Error.UnableToFindProject ∧
    bundle_update_linux [] = Except.error Error.UnableToFindProject :=
  updater_requires_prior_bundle [] (by simp) (by simp)

/-- What `create_tar_from_src` reads from the filesystem below the source
path: a regular file's bytes, or a directory's named children. -/
inductive SrcNode where
  | file (bytes : List Nat)
  | dir (children : List (String × SrcNode))

/-- One tar entry: its name inside the archive, whether it is a directory
entry (`append_dir`) or a file entry (`append_file`) carrying the file's
bytes. -/
structure TarEntry where
  name : String
  isDir : Bool
  bytes : List Nat
deriving DecidableEq, Repr

mutual

/-- The `walkdir` part of the Linux `create_tar_from_src`: the entry for a
node at archive path `pfx` followed by its subtree in traversal order. -/
def walkEntries (pfx : String) : SrcNode → List TarEntry
  | SrcNode.file bytes => [{ name := pfx, isDir := false, bytes := bytes }]
  | SrcNode.dir children =>
    { name := pfx, isDir := true, bytes := [] } :: walkChildren pfx children

/-- Subtree traversal of a directory's children, in list order. -/
def walkChildren (pfx : String) : List (String × SrcNode) → List TarEntry
  | [] => []
  | (n, c) :: rest => walkEntries (pfx ++ "/" ++ n) c ++ walkChildren pfx rest

end

/-- Mirrors the Linux `create_tar_from_src` of
`src/cli/src/bundler/bundle/updater_bundle.rs`: a regular-file source
becomes one `append_file` entry named by the source's file name; a
directory source is walked (the root itself skipped by the
`src_path == src_dir` continue), every entry archived under the source's
base name (the `strip_prefix(src_dir.parent())` re-rooting). -/
def create_tar_from_src (src_dir : String) (node : SrcNode) : List TarEntry :=
  match node with
  | SrcNode.file bytes =>
    [{ name := rustFileName src_dir, isDir := false, bytes := bytes }]
  | SrcNode.dir children => walkChildren (rustFileName src_dir) children

/-- The gzip stream written around the tar: `flate2`'s `GzEncoder` is an
external lossless codec, embedded as a wrapper whose decompression
returns exactly the tar content it was given. -/
structure GzipArchive where
  entries : List TarEntry
deriving DecidableEq, Repr

/-- Lossless decompression of the gzip layer. -/
def gzipDecompress (a : GzipArchive) : List TarEntry :=
  a.entries

/-- Mirrors `create_tar`: tar the source, gzip-compress the stream. -/
def create_tar (src_dir : String) (node : SrcNode) : GzipArchive :=
  { entries := create_tar_from_src src_dir node }

/-- C5: for a source that is a single regular file, `create_tar` produces
a gzip-compressed tar archive that decompresses to exactly one file entry
whose name is the source's base name and whose bytes are the original
file's bytes. -/
theorem create_tar_single_file (src_path : String) (bytes : List Nat) :
    gzipDecompress (create_tar src_path (SrcNode.file bytes))
      = [{ name := rustFileName src_path, isDir := false, bytes := bytes }] ∧
    (gzipDecompress (create_tar src_path (SrcNode.file bytes))).length = 1 := by
  constructor
  · simp [gzipDecompress, create_tar, create_tar_from_src]
  · simp [gzipDecompress, create_tar, create_tar_from_src]

end TauriBundler
